import Mathlib

/-!
Verification development for the `daas_py_idx` indexer.

The Python source (`daas_py_idx/main.py`, `daas_py_idx/util/utilities.py`)
is shallowly embedded below.  Pure row/cell transformations become Lean
functions; the effectful steps (database connections, cursor execution,
Solr upserts, thread-pool futures) are passed in as `Except`-valued
parameters so that every control path of the source - including its
`try/except/finally` structure - can be followed faithfully.  The external
`json.loads` is abstracted as a `String → Option Json` parameter, `none`
modelling a raised `JSONDecodeError`.
-/

/-- JSON values as produced by the external `json.loads`. -/
inductive Json where
  | null : Json
  | bool (b : Bool) : Json
  | num (n : Int) : Json
  | str (s : String) : Json
  | arr (xs : List Json) : Json
  | obj (fields : List (String × Json)) : Json

/-- A timezone-aware Python `datetime.datetime`: civil fields plus the
`utcoffset()` of its `tzinfo`, in minutes. -/
structure PyDatetime where
  year : Int
  month : Int
  day : Int
  hour : Int
  minute : Int
  second : Int
  microsecond : Int
  offsetMinutes : Int
deriving DecidableEq

/-- A cell value as it appears in a fetched record: the Python value kinds
that flow through the rows of `get_by_id`/`get_all` and the records of
`update_solr`.  `vNaT` is pandas `NaT` (an instance of `datetime.datetime`);
`vNdarray` is a numpy array; `vList` is a decoded Python list. -/
inductive Value where
  | vNull : Value
  | vNaT : Value
  | vBool (b : Bool) : Value
  | vInt (n : Int) : Value
  | vStr (s : String) : Value
  | vDatetime (d : PyDatetime) : Value
  | vNdarray (xs : List Json) : Value
  | vList (xs : List Json) : Value

/-- Days since 1970-01-01 of a proleptic-Gregorian civil date
(Howard Hinnant's `days_from_civil`; all divisors are positive, so `/` and
`%` on `Int` are floor division here). -/
def daysFromCivil (y m d : Int) : Int :=
  let y2 := if m ≤ 2 then y - 1 else y
  let era := y2 / 400
  let yoe := y2 - era * 400
  let mp := (m + 9) % 12
  let doy := (153 * mp + 2) / 5 + d - 1
  let doe := yoe * 365 + yoe / 4 - yoe / 100 + doy
  era * 146097 + doe - 719468

/-- Civil date from a count of days since 1970-01-01 (Howard Hinnant's
`civil_from_days`), returned as `(year, month, day)`. -/
def civilFromDays (z0 : Int) : Int × Int × Int :=
  let z := z0 + 719468
  let era := z / 146097
  let doe := z % 146097
  let yoe := (doe - doe / 1460 + doe / 36524 - doe / 146096) / 365
  let y := yoe + era * 400
  let doy := doe - (365 * yoe + yoe / 4 - yoe / 100)
  let mp := (5 * doy + 2) / 153
  let d := doy - (153 * mp + 2) / 5 + 1
  let m := if mp < 10 then mp + 3 else mp - 9
  (if m ≤ 2 then y + 1 else y, m, d)

def microsPerDay : Int := 86400000000

/-- The absolute instant (microseconds since 1970-01-01T00:00:00Z) denoted by
an aware datetime; subtracting the `utcoffset` is exactly what
`value.astimezone(datetime.timezone.utc)` does. -/
def toInstantMicros (t : PyDatetime) : Int :=
  daysFromCivil t.year t.month t.day * microsPerDay
    + t.hour * 3600000000 + t.minute * 60000000 + t.second * 1000000
    + t.microsecond - t.offsetMinutes * 60000000

/-- The civil UTC fields of an absolute instant: the fields of
`value.astimezone(datetime.timezone.utc)`. -/
structure UtcFields where
  year : Int
  month : Int
  day : Int
  hour : Int
  minute : Int
  second : Int
  microsecond : Int
deriving DecidableEq

def utcFieldsOfInstant (t : Int) : UtcFields :=
  let days := t / microsPerDay
  let rem := t % microsPerDay
  let ymd := civilFromDays days
  let sod := rem / 1000000
  { year := ymd.1, month := ymd.2.1, day := ymd.2.2,
    hour := sod / 3600, minute := sod % 3600 / 60, second := sod % 60,
    microsecond := rem % 1000000 }

/-- Decimal digits of a natural number, most significant first: the rendering
used by the C `strftime` conversions and by Python `str` on a natural. -/
def decDigitsAux : Nat → Nat → List Char → List Char
  | 0, _, acc => acc
  | fuel + 1, n, acc =>
    if n < 10 then Nat.digitChar n :: acc
    else decDigitsAux fuel (n / 10) (Nat.digitChar (n % 10) :: acc)

def decDigits (n : Nat) : List Char := decDigitsAux (n + 1) n []

/-- Zero-pad a digit list on the left to width `w` (the C `%02d` / `%06d`
conversions). -/
def padZeros (w : Nat) (ds : List Char) : List Char :=
  List.replicate (w - ds.length) '0' ++ ds

def fmt2 (n : Int) : List Char := padZeros 2 (decDigits n.toNat)

def fmt6 (n : Int) : List Char := padZeros 6 (decDigits n.toNat)

/-- The `%Y` conversion: glibc prints the year unpadded (years handled by
Python `datetime` are 1..9999, so the nonnegative rendering is faithful). -/
def fmtYear (n : Int) : List Char := decDigits n.toNat

/-- Character stream of `strftime('%Y-%m-%dT%H:%M:%S.%f')` on UTC fields. -/
def strftimeChars (f : UtcFields) : List Char :=
  fmtYear f.year ++ '-' :: fmt2 f.month ++ '-' :: fmt2 f.day
    ++ 'T' :: fmt2 f.hour ++ ':' :: fmt2 f.minute ++ ':' :: fmt2 f.second
    ++ '.' :: fmt6 f.microsecond

/-- The timestamp rendering of `utilities.convert_timestamptz_to_date`
(utilities.py line 33):
`value.astimezone(timezone.utc).strftime('%Y-%m-%dT%H:%M:%S.%f')[:-3] + 'Z'`. -/
def formatTimestamptz (t : PyDatetime) : String :=
  let cs := strftimeChars (utcFieldsOfInstant (toInstantMicros t))
  String.mk (cs.take (cs.length - 3) ++ ['Z'])

/-- The per-cell body of `convert_timestamptz_to_date` (utilities.py lines
25-33): only `datetime.datetime` instances are touched; `NaT` (which passes
the `isinstance` check and then `pd.isna`) becomes `None`, aware datetimes
become the formatted UTC string, everything else is left as is. -/
def convertTsValue : Value → Value
  | .vNaT => .vNull
  | .vDatetime d => .vStr (formatTimestamptz d)
  | v => v

/-- `utilities.convert_timestamptz_to_date(record)` (utilities.py lines
24-34): rewrites every datetime-typed cell of the record in place. -/
def convert_timestamptz_to_date (record : List (String × Value)) :
    List (String × Value) :=
  record.map fun kv => (kv.1, convertTsValue kv.2)

/-- `utilities.convert_jsonb(value)` (utilities.py lines 41-51), with the
external `json.loads` abstracted as `parse`: a string that decodes to a list
is replaced by the list, any other string (decode failure included) and any
non-string value is returned as is. -/
def convert_jsonb (parse : String → Option Json) : Value → Value
  | .vStr s =>
    match parse s with
    | some (Json.arr xs) => .vList xs
    | some _ => .vStr s
    | none => .vStr s
  | v => v

/-- One `record[key]` rewrite of the loop inside `update_solr` (main.py lines
128-137): numpy arrays become Python lists via `tolist()`; a string that
decodes to a JSON list is replaced by the list (`json.JSONDecodeError` is
passed over silently); everything else is untouched. -/
def solrFieldFix (parse : String → Option Json) : Value → Value
  | .vNdarray xs => .vList xs
  | .vStr s =>
    match parse s with
    | some (Json.arr xs) => .vList xs
    | some _ => .vStr s
    | none => .vStr s
  | v => v

/-- The full per-record normalisation performed inside `update_solr` (main.py
lines 123-137): `convert_timestamptz_to_date` first, then the field-fix loop
over the record's items. -/
def update_solr_normalize (parse : String → Option Json)
    (record : List (String × Value)) : List (String × Value) :=
  (convert_timestamptz_to_date record).map fun kv => (kv.1, solrFieldFix parse kv.2)

/-- The flush predicate of `event_listener` (main.py lines 188-189): the
outer size-or-age test, then the inner non-emptiness test.  `now` and
`lastExecuted` are clock readings, `size` and `duration` the per-domain
thresholds after `int(...)`. -/
def flushTriggered (buffer : List String) (size : Int)
    (now lastExecuted duration : Int) : Bool :=
  if (buffer.length : Int) > size ∨ now - lastExecuted ≥ duration then
    !buffer.isEmpty
  else
    false

/-- The batching loop of `process_index_override` (main.py lines 263-284).
`bs`/`bt` are `index_override_batch_source_ts` / `..._target_ts`; timestamps
are abstracted as integers (only `+` and `≤` are used on them) and `step` is
the `timedelta` of `IDX_OVERRIDE_TIMESTEP_DAY_SIZE` days in the same unit.
Each iteration checks `bt ≤ target`, sets `bt := bs + step`, submits the
sub-window `(bs, bt)`, then sets `bs := bt`.  The `while` loop is given
explicit fuel because it does not terminate when `step ≤ 0`. -/
def overrideWindows : Nat → Int → Int → Int → Int → List (Int × Int)
  | 0, _, _, _, _ => []
  | fuel + 1, bs, bt, target, step =>
    if bt ≤ target then
      (bs, bs + step) :: overrideWindows fuel (bs + step) (bs + step) target step
    else
      []

abbrev Row := List (String × Value)

abbrev Table := List Row

/-- Python exceptions distinguished by the model: a module-level
`UnboundLocalError`/`NameError` on a never-assigned local, or any other
raised exception carrying its message. -/
inductive PyExc where
  | unboundLocal (localName : String) : PyExc
  | raised (msg : String) : PyExc

/-- The shared `try/except Exception/finally` skeleton of `get_all` (main.py
lines 30-60) and `get_by_id` (lines 62-90).  `connect` is the outcome of
`utilities.setup_connection`, `query` the outcome of
`cursor.execute` + `fetchall` + the dataframe/arrow conversion (both query
forms of `get_all` are abstracted by the one outcome).  The second component
records what the `except` clause logged.  A failed `setup_connection` leaves
`cursor` unbound, so the `finally` block raises `UnboundLocalError`; a failed
query is caught and logged, the `finally` block closes the bound cursor, and
the trailing `return arrow_table` then reads a never-assigned local. -/
def dbFetchRun (connect : Except String Unit) (query : Except String Table) :
    Except PyExc Table × List String :=
  match connect with
  | .error e => (.error (.unboundLocal "cursor"), [e])
  | .ok _ =>
    match query with
    | .error e => (.error (.unboundLocal "arrow_table"), [e])
    | .ok t => (.ok t, [])

/-- `get_all(batch_start_ts, batch_end_ts)` (main.py lines 30-60). -/
def get_all (connect : Except String Unit) (query : Except String Table) :
    Except PyExc Table × List String :=
  dbFetchRun connect query

/-- `get_by_id(notify_buffer)` (main.py lines 62-90). -/
def get_by_id (connect : Except String Unit) (query : Except String Table) :
    Except PyExc Table × List String :=
  dbFetchRun connect query

/-- ASCII lowering of `str.lower()` as applied to module names. -/
def pyLower (s : String) : String := String.mk (s.data.map Char.toLower)

/-- ASCII raising of `str.upper()`. -/
def pyUpper (s : String) : String := String.mk (s.data.map Char.toUpper)

/-- `str.strip()`: drop whitespace from both ends. -/
def pyStrip (s : String) : String :=
  String.mk (((s.data.dropWhile Char.isWhitespace).reverse.dropWhile
    Char.isWhitespace).reverse)

/-- The `.replace` of main.py line 344: removing every single-quote
character (code point 39). -/
def stripSingleQuotes (s : String) : String :=
  String.mk (s.data.filter fun c => c != Char.ofNat 39)

/-- The per-domain transform registry behind `importlib.import_module`: a
module name resolves to nothing (`ModuleNotFoundError`), to a module without
a `process` attribute, or to its `process` entry point (whose run may raise). -/
def Registry (α : Type) := String → Option (Option (α → Except String α))

/-- `process_business_logic(module_name, data)` (main.py lines 220-235): the
module name is lowered before import; `ModuleNotFoundError` is caught and a
warning logged; a module without a `process` attribute only logs a warning;
an exception raised by `process(data)` itself is not caught and propagates.
On a normal return the `Option String` carries the warning logged, if any. -/
def process_business_logic {α : Type} (registry : Registry α)
    (moduleName : String) (data : α) : Except String (Option String × α) :=
  match registry (pyLower moduleName) with
  | none => .ok (some "module not found", data)
  | some none => .ok (some "does not contain a process function", data)
  | some (some f) =>
    match f data with
    | .ok d => .ok (none, d)
    | .error e => .error e

/-- `update_solr(arrow_table, solr_url)` (main.py lines 107-144).  The whole
body runs inside `try/except Exception`, so this call never raises: a `None`
table logs a warning and returns early; otherwise the records are normalised
and `solr.add` is attempted, whose outcome is `solrAdd`.  The result is the
list of batches actually posted to Solr - empty when `solr.add` raised,
because the exception is caught and only logged. -/
def update_solr (parse : String → Option Json) (solrAdd : Except String Unit)
    (arrow_table : Option Table) : List Table :=
  match arrow_table with
  | none => []
  | some t =>
    let docs := t.map (update_solr_normalize parse)
    match solrAdd with
    | .ok _ => [docs]
    | .error _ => []

/-- `clean_event_notification_by_id(notify_buffer, channel_name)` (main.py
lines 92-105).  A failed `setup_connection` leaves `cursor` unbound and the
`finally` block raises `UnboundLocalError`; a failed execute/commit is caught
and logged, so the deletion silently does not happen; on success the buffered
rows whose payloads were sent are deleted.  Returns the persistent buffer
after the call, or the escaping exception. -/
def clean_event_notification_by_id (connect : Except String Unit)
    (exec : Except String Unit) (notify_buffer persistent : List String) :
    Except PyExc (List String) :=
  match connect with
  | .error _ => .error (.unboundLocal "cursor")
  | .ok _ =>
    match exec with
    | .error _ => .ok persistent
    | .ok _ => .ok (persistent.filter fun p => !notify_buffer.contains p)

/-- State carried across one flush of the listener: the in-memory notify
buffer, the payloads still held by the server-side notification buffer, and
the batches posted to Solr so far. -/
structure ListenerState where
  notifyBuffer : List String
  persistentBuffer : List String
  solrBatches : List Table

/-- Outcomes of the effectful statements of one flush. -/
structure FlushEnv where
  fetchConnect : Except String Unit
  fetchQuery : Except String Table
  registry : Registry Table
  solrAdd : Except String Unit
  cleanConnect : Except String Unit
  cleanExec : Except String Unit

/-- Where the listener loop stands after a flush: still in its inner
`LISTEN` loop, or in the backoff sleep of the enclosing `except` handler. -/
inductive FlushStep where
  | listen (st : ListenerState) : FlushStep
  | backoff (st : ListenerState) (e : PyExc) : FlushStep

/-- One flush of `event_listener` (main.py lines 189-198), taken when the
flush predicate holds on a non-empty buffer.  Statement order is that of the
source: `get_by_id`, `process_business_logic`, `update_solr`,
`clean_event_notification_by_id`, `notify_buffer.clear()`.  An exception
escaping any statement is caught by the enclosing `except` of
`event_listener` (line 205) and the loop moves to its backoff sleep with the
state exactly as it stood. -/
def event_listener_flush (env : FlushEnv) (parse : String → Option Json)
    (moduleName : String) (st : ListenerState) : FlushStep :=
  match get_by_id env.fetchConnect env.fetchQuery with
  | (.error e, _) => .backoff st e
  | (.ok data, _) =>
    match process_business_logic env.registry moduleName data with
    | .error e => .backoff st (.raised e)
    | .ok (_, data2) =>
      let added := update_solr parse env.solrAdd (some data2)
      match clean_event_notification_by_id env.cleanConnect env.cleanExec
          st.notifyBuffer st.persistentBuffer with
      | .error e =>
        .backoff { st with solrBatches := st.solrBatches ++ added } e
      | .ok persistent2 =>
        .listen { notifyBuffer := [],
                  persistentBuffer := persistent2,
                  solrBatches := st.solrBatches ++ added }

/-- Result of one run of `process_index_override`: the Python return value
(`none` models falling off the function after the outer `except` caught an
exception, i.e. returning `None`), whether `clean_index_override` was
executed and committed, the sub-windows submitted, and the messages logged
for failed workers. -/
structure PlannerRun where
  returned : Option Bool
  archived : Bool
  windows : List (Int × Int)
  failureLogs : List String

/-- `process_index_override()` (main.py lines 237-309) with the effectful
pieces abstracted: `overrides` is the row set returned by
`get_index_override(domain)` as `(source_ts, target_ts)` pairs;
`workerResult w` is what `future.result()` yields for the sub-window `w`
(an `.error` models a raised exception inside `process_batch`);
`archiveExec` is the outcome of the `CALL clean_index_override` statement
and its commit.  Worker failures are caught inside the `as_completed` loop
and only logged; the archive call follows unconditionally.  If the archive
statement itself raises, the outer `except` catches it and the function
returns `None`. -/
def process_index_override (overrides : List (Int × Int)) (step : Int)
    (fuel : Nat) (workerResult : Int × Int → Except String Bool)
    (archiveExec : Except String Unit) : PlannerRun :=
  match overrides with
  | [] =>
    { returned := some false, archived := false, windows := [],
      failureLogs := [] }
  | (sourceTs, targetTs) :: _ =>
    let ws := overrideWindows fuel sourceTs sourceTs targetTs step
    let logs := ws.filterMap fun w =>
      match workerResult w with
      | .ok true => none
      | .ok false => some "warn: some batch processing tasks failed"
      | .error e => some e
    match archiveExec with
    | .ok _ =>
      { returned := some true, archived := true, windows := ws,
        failureLogs := logs }
    | .error e =>
      { returned := none, archived := false, windows := ws,
        failureLogs := logs ++ [e] }

/-- The `DOMAIN` binding of the `__main__` block (main.py lines 343-346):
`args.domain.upper().upper().strip().replace(...)` when `-d` was passed,
else the truthiness-tested `DOMAIN` environment variable (an empty string is
falsy and leaves the name unassigned); `none` means the name `DOMAIN` is
never assigned. -/
def bindDomain (argDomain envDomain : Option String) : Option String :=
  match argDomain with
  | some d => some (stripSingleQuotes (pyStrip (pyUpper (pyUpper d))))
  | none =>
    match envDomain with
    | none => none
    | some e =>
      if e = "" then none
      else some (stripSingleQuotes (pyStrip (pyUpper e)))

/-- The configuration attributes read with bare `getattr` by the `__main__`
block (main.py lines 352-360), in source order; a missing one raises
`AttributeError`. -/
def requiredKeys (domain : String) : List String :=
  ["SOLR_COLLECTION_" ++ domain, "SOLR_URL", "DB_CHANNEL_" ++ domain,
   "DB_FUNC_GET_BY_ID_" ++ domain, "DB_FUNC_GET_" ++ domain,
   "IDX_BUFFER_SIZE_" ++ domain, "IDX_BUFFER_DURATION_" ++ domain,
   "IDX_FETCH_KEY_" ++ domain, "IDX_EVENT_FETCH_KEY"]

def firstMissingKey (cfg : String → Option String) (keys : List String) :
    Option String :=
  keys.find? fun k => (cfg k).isNone

/-- How the interpreter ended: `sys.exit(code)` or process end give
`exited code`; an unhandled exception gives `crashed`. -/
inductive MainOutcome where
  | exited (code : Nat) : MainOutcome
  | crashed (excMsg : String) : MainOutcome
deriving DecidableEq

/-- CPython terminates with status 1 when an unhandled exception reaches the
top level, and with the given status on `sys.exit(code)` / normal end. -/
def exitStatus : MainOutcome → Nat
  | .exited c => c
  | .crashed _ => 1

/-- The `__main__` block of main.py (lines 333-379), with the selected mode
bodies abstracted as `runModes` (their outcome if reached).  When neither
source supplies a domain the name `DOMAIN` is never assigned and line 348
(`if DOMAIN == None`) raises `NameError`; when a required configuration
attribute is missing the corresponding bare `getattr` raises
`AttributeError`; both are unhandled.  (The explicit `sys.exit(1)` on line
350 is unreachable: both assignments to `DOMAIN` produce a string.) -/
def mainEntry (argDomain envDomain : Option String)
    (cfg : String → Option String) (runModes : Except String Unit) :
    MainOutcome :=
  match bindDomain argDomain envDomain with
  | none => .crashed "NameError: name DOMAIN is not defined"
  | some domain =>
    match firstMissingKey cfg (requiredKeys domain) with
    | some k => .crashed ("AttributeError: " ++ k)
    | none =>
      match runModes with
      | .ok _ => .exited 0
      | .error e => .crashed e

/-- Decides whether a character stream matches the anchored pattern of the
spec's timestamp wire format: four digits, dash, two digits, dash, two
digits, T, two digits, colon, two digits, colon, two digits, dot, three
digits, Z. -/
def matchesTimestampShape : List Char → Bool
  | [y1, y2, y3, y4, c1, m1, m2, c2, d1, d2, c3, h1, h2, c4, n1, n2, c5,
     s1, s2, c6, f1, f2, f3, c7] =>
    y1.isDigit && y2.isDigit && y3.isDigit && y4.isDigit && c1 == '-' &&
    m1.isDigit && m2.isDigit && c2 == '-' && d1.isDigit && d2.isDigit &&
    c3 == 'T' && h1.isDigit && h2.isDigit && c4 == ':' && n1.isDigit &&
    n2.isDigit && c5 == ':' && s1.isDigit && s2.isDigit && c6 == '.' &&
    f1.isDigit && f2.isDigit && f3.isDigit && c7 == 'Z'
  | _ => false

def matchesTimestampPattern (s : String) : Bool :=
  matchesTimestampShape s.data

theorem decDigitsAux_small (fuel n : Nat) (acc : List Char) (hn : n < 10)
    (hf : 0 < fuel) : decDigitsAux fuel n acc = Nat.digitChar n :: acc := by
  cases fuel with
  | zero => omega
  | succ f => simp [decDigitsAux, hn]

theorem decDigitsAux_step (fuel n : Nat) (acc : List Char) (hn : 10 ≤ n)
    (hf : 0 < fuel) :
    decDigitsAux fuel n acc
      = decDigitsAux (fuel - 1) (n / 10) (Nat.digitChar (n % 10) :: acc) := by
  cases fuel with
  | zero => omega
  | succ f => simp [decDigitsAux, show ¬ n < 10 by omega]

theorem digitChar_isDigit (n : Nat) (h : n < 10) :
    (Nat.digitChar n).isDigit = true := by
  interval_cases n <;> decide

theorem decDigitsAux_all_digits : ∀ (fuel n : Nat) (acc : List Char),
    (∀ c ∈ acc, c.isDigit = true) →
    ∀ c ∈ decDigitsAux fuel n acc, c.isDigit = true := by
  intro fuel
  induction fuel with
  | zero => intro n acc hacc; simpa [decDigitsAux] using hacc
  | succ f ih =>
    intro n acc hacc c hc
    by_cases hn : n < 10
    · rw [decDigitsAux_small _ _ _ hn (by omega)] at hc
      rcases List.mem_cons.1 hc with h | h
      · subst h; exact digitChar_isDigit n hn
      · exact hacc c h
    · simp only [decDigitsAux, if_neg hn] at hc
      refine ih (n / 10) (Nat.digitChar (n % 10) :: acc) ?_ c hc
      intro c2 hc2
      rcases List.mem_cons.1 hc2 with h | h
      · subst h; exact digitChar_isDigit _ (Nat.mod_lt n (by omega))
      · exact hacc c2 h

theorem decDigits_all_digits (n : Nat) :
    ∀ c ∈ decDigits n, c.isDigit = true :=
  decDigitsAux_all_digits (n + 1) n [] (by simp)

theorem decDigitsAux_len_le : ∀ (fuel k n : Nat) (acc : List Char),
    n < fuel → n < 10 ^ k → 0 < k →
    (decDigitsAux fuel n acc).length ≤ k + acc.length := by
  intro fuel
  induction fuel with
  | zero => omega
  | succ f ih =>
    intro k n acc hfu hk hk0
    by_cases hn : n < 10
    · rw [decDigitsAux_small _ _ _ hn (by omega)]
      simp; omega
    · rw [decDigitsAux_step _ _ _ (by omega) (by omega)]
      have hk2 : 2 ≤ k := by
        by_contra h
        have : k = 1 := by omega
        subst this; simp at hk; omega
      have h1 : n / 10 < f := by
        have := Nat.div_lt_self (by omega : 0 < n) (by omega : 1 < 10)
        omega
      have h2 : n / 10 < 10 ^ (k - 1) := by
        rw [Nat.div_lt_iff_lt_mul (by omega : 0 < 10)]
        calc n < 10 ^ k := hk
        _ = 10 ^ (k - 1) * 10 := by
              rw [← Nat.pow_succ]
              congr 1
              omega
      have := ih (k - 1) (n / 10) (Nat.digitChar (n % 10) :: acc) h1 h2 (by omega)
      simp at this ⊢
      omega

theorem decDigitsAux_len_ge : ∀ (fuel k n : Nat) (acc : List Char),
    n < fuel → 10 ^ k ≤ n →
    k + 1 + acc.length ≤ (decDigitsAux fuel n acc).length := by
  intro fuel
  induction fuel with
  | zero => omega
  | succ f ih =>
    intro k n acc hfu hk
    by_cases hn : n < 10
    · rw [decDigitsAux_small _ _ _ hn (by omega)]
      have : k = 0 := by
        by_contra h
        have h10 : 10 ^ 1 ≤ 10 ^ k := Nat.pow_le_pow_right (by omega) (by omega)
        simp at h10; omega
      subst this; simp; omega
    · rw [decDigitsAux_step _ _ _ (by omega) (by omega)]
      have h1 : n / 10 < f := by
        have := Nat.div_lt_self (by omega : 0 < n) (by omega : 1 < 10)
        omega
      have h2 : 10 ^ (k - 1) ≤ n / 10 := by
        rw [Nat.le_div_iff_mul_le (by omega : 0 < 10)]
        rcases Nat.eq_zero_or_pos k with h | h
        · subst h; simpa using hn
        · calc 10 ^ (k - 1) * 10 = 10 ^ k := by
                rw [← Nat.pow_succ]
                congr 1
                omega
          _ ≤ n := hk
      have := ih (k - 1) (n / 10) (Nat.digitChar (n % 10) :: acc) h1 h2
      simp at this ⊢
      rcases Nat.eq_zero_or_pos k with h | h
      · omega
      · omega

theorem padZeros_shape (w : Nat) (ds : List Char) (h : ds.length ≤ w)
    (hd : ∀ c ∈ ds, c.isDigit = true) :
    (padZeros w ds).length = w ∧ ∀ c ∈ padZeros w ds, c.isDigit = true := by
  constructor
  · simp [padZeros]; omega
  · intro c hc
    rcases List.mem_append.1 hc with h1 | h2
    · have := List.eq_of_mem_replicate h1
      subst this; decide
    · exact hd c h2

theorem list_len_two {α : Type} (l : List α) (h : l.length = 2) :
    ∃ a b, l = [a, b] := by
  match l, h with
  | [a, b], _ => exact ⟨a, b, rfl⟩

theorem list_len_four {α : Type} (l : List α) (h : l.length = 4) :
    ∃ a b c d, l = [a, b, c, d] := by
  match l, h with
  | [a, b, c, d], _ => exact ⟨a, b, c, d, rfl⟩

theorem list_len_six {α : Type} (l : List α) (h : l.length = 6) :
    ∃ a b c d e f, l = [a, b, c, d, e, f] := by
  match l, h with
  | [a, b, c, d, e, f], _ => exact ⟨a, b, c, d, e, f, rfl⟩

theorem fmt2_shape (n : Int) (h0 : 0 ≤ n) (h : n < 100) :
    ∃ a b, fmt2 n = [a, b] ∧ a.isDigit = true ∧ b.isDigit = true := by
  have hnat : n.toNat < 10 ^ 2 := by norm_num; omega
  have hlen : (decDigits n.toNat).length ≤ 2 :=
    decDigitsAux_len_le (n.toNat + 1) 2 n.toNat [] (by omega) hnat (by omega)
  have hdig : ∀ c ∈ decDigits n.toNat, c.isDigit = true := decDigits_all_digits _
  obtain ⟨hl, hd⟩ := padZeros_shape 2 _ hlen hdig
  obtain ⟨a, b, hab⟩ := list_len_two _ hl
  rw [fmt2]
  exact ⟨a, b, hab, hd a (by rw [hab]; simp), hd b (by rw [hab]; simp)⟩

theorem fmt6_shape (n : Int) (h0 : 0 ≤ n) (h : n < 1000000) :
    ∃ f1 f2 f3 f4 f5 f6, fmt6 n = [f1, f2, f3, f4, f5, f6]
      ∧ f1.isDigit = true ∧ f2.isDigit = true ∧ f3.isDigit = true
      ∧ f4.isDigit = true ∧ f5.isDigit = true ∧ f6.isDigit = true := by
  have hnat : n.toNat < 10 ^ 6 := by norm_num; omega
  have hlen : (decDigits n.toNat).length ≤ 6 :=
    decDigitsAux_len_le (n.toNat + 1) 6 n.toNat [] (by omega) hnat (by omega)
  have hdig : ∀ c ∈ decDigits n.toNat, c.isDigit = true := decDigits_all_digits _
  obtain ⟨hl, hd⟩ := padZeros_shape 6 _ hlen hdig
  obtain ⟨f1, f2, f3, f4, f5, f6, hl6⟩ := list_len_six _ hl
  rw [fmt6]
  refine ⟨f1, f2, f3, f4, f5, f6, hl6, ?_, ?_, ?_, ?_, ?_, ?_⟩ <;>
    · apply hd
      rw [hl6]
      simp

theorem fmtYear_shape (y : Int) (h1 : 1000 ≤ y) (h2 : y ≤ 9999) :
    ∃ a b c d, fmtYear y = [a, b, c, d] ∧ a.isDigit = true
      ∧ b.isDigit = true ∧ c.isDigit = true ∧ d.isDigit = true := by
  have hlt : y.toNat < 10 ^ 4 := by norm_num; omega
  have hge : 10 ^ 3 ≤ y.toNat := by norm_num; omega
  have hle4 : (decDigits y.toNat).length ≤ 4 :=
    decDigitsAux_len_le (y.toNat + 1) 4 y.toNat [] (by omega) hlt (by omega)
  have hge4 : 4 ≤ (decDigits y.toNat).length := by
    have := decDigitsAux_len_ge (y.toNat + 1) 3 y.toNat [] (by omega) hge
    simpa using this
  have hdig : ∀ c ∈ decDigits y.toNat, c.isDigit = true := decDigits_all_digits _
  obtain ⟨a, b, c, d, habcd⟩ := list_len_four (decDigits y.toNat) (by omega)
  rw [fmtYear]
  refine ⟨a, b, c, d, habcd, ?_, ?_, ?_, ?_⟩ <;>
    · apply hdig
      rw [habcd]
      simp

theorem utcFields_time_bounds (t : Int) :
    0 ≤ (utcFieldsOfInstant t).hour ∧ (utcFieldsOfInstant t).hour < 24
    ∧ 0 ≤ (utcFieldsOfInstant t).minute ∧ (utcFieldsOfInstant t).minute < 60
    ∧ 0 ≤ (utcFieldsOfInstant t).second ∧ (utcFieldsOfInstant t).second < 60
    ∧ 0 ≤ (utcFieldsOfInstant t).microsecond
    ∧ (utcFieldsOfInstant t).microsecond < 1000000 := by
  have hmp : (0 : Int) < microsPerDay := by norm_num [microsPerDay]
  have hr0 : 0 ≤ t % microsPerDay := Int.emod_nonneg t (by norm_num [microsPerDay])
  have hr1 : t % microsPerDay < microsPerDay := Int.emod_lt_of_pos t hmp
  have hs0 : 0 ≤ t % microsPerDay / 1000000 :=
    Int.ediv_nonneg hr0 (by norm_num)
  have hs1 : t % microsPerDay / 1000000 < 86400 := by
    rw [Int.ediv_lt_iff_lt_mul (by norm_num : (0 : Int) < 1000000)]
    norm_num [microsPerDay] at hr1 ⊢
    omega
  simp only [utcFieldsOfInstant]
  refine ⟨Int.ediv_nonneg hs0 (by norm_num), ?_,
    Int.ediv_nonneg (Int.emod_nonneg _ (by norm_num)) (by norm_num), ?_,
    Int.emod_nonneg _ (by norm_num), Int.emod_lt_of_pos _ (by norm_num),
    Int.emod_nonneg _ (by norm_num), Int.emod_lt_of_pos _ (by norm_num)⟩
  · rw [Int.ediv_lt_iff_lt_mul (by norm_num : (0 : Int) < 3600)]
    omega
  · rw [Int.ediv_lt_iff_lt_mul (by norm_num : (0 : Int) < 60)]
    have := Int.emod_lt_of_pos (t % microsPerDay / 1000000)
      (by norm_num : (0 : Int) < 3600)
    omega

/-- C3: for every timestamp-with-timezone cell the normaliser
(`convert_timestamptz_to_date`) converts to UTC and formats it as
`YYYY-MM-DDTHH:MM:SS.sssZ` - millisecond precision with a trailing `Z`,
matching the anchored digit pattern - null cells stay null (`NaT` becomes
`None`), and the spec's literal example `2024-06-01 12:34:56.789123+02:00`
renders as `2024-06-01T10:34:56.789Z`.  The year/month/day hypotheses state
that the UTC rendering of the instant lies in the four-digit civil range
(glibc prints `%Y` unpadded, so a year below 1000 could not match the
four-digit pattern). -/
theorem c3_timestamp_normalisation (t : PyDatetime)
    (hy1 : 1000 ≤ (utcFieldsOfInstant (toInstantMicros t)).year)
    (hy2 : (utcFieldsOfInstant (toInstantMicros t)).year ≤ 9999)
    (hm1 : 1 ≤ (utcFieldsOfInstant (toInstantMicros t)).month)
    (hm2 : (utcFieldsOfInstant (toInstantMicros t)).month ≤ 12)
    (hd1 : 1 ≤ (utcFieldsOfInstant (toInstantMicros t)).day)
    (hd2 : (utcFieldsOfInstant (toInstantMicros t)).day ≤ 31) :
    matchesTimestampPattern (formatTimestamptz t) = true
    ∧ convertTsValue (Value.vDatetime t) = Value.vStr (formatTimestamptz t)
    ∧ convertTsValue Value.vNull = Value.vNull
    ∧ convertTsValue Value.vNaT = Value.vNull
    ∧ formatTimestamptz ⟨2024, 6, 1, 12, 34, 56, 789123, 120⟩
        = "2024-06-01T10:34:56.789Z" := by
  refine ⟨?_, rfl, rfl, rfl, by decide⟩
  obtain ⟨hh0, hh1, hn0, hn1, hs0, hs1, hu0, hu1⟩ :=
    utcFields_time_bounds (toInstantMicros t)
  obtain ⟨y1, y2, y3, y4, hyd, hgy1, hgy2, hgy3, hgy4⟩ :=
    fmtYear_shape (utcFieldsOfInstant (toInstantMicros t)).year hy1 hy2
  obtain ⟨m1, m2, hmd, hgm1, hgm2⟩ :=
    fmt2_shape (utcFieldsOfInstant (toInstantMicros t)).month (by omega) (by omega)
  obtain ⟨d1, d2, hdd, hgd1, hgd2⟩ :=
    fmt2_shape (utcFieldsOfInstant (toInstantMicros t)).day (by omega) (by omega)
  obtain ⟨h1, h2, hhd, hgh1, hgh2⟩ :=
    fmt2_shape (utcFieldsOfInstant (toInstantMicros t)).hour (by omega) (by omega)
  obtain ⟨n1, n2, hnd, hgn1, hgn2⟩ :=
    fmt2_shape (utcFieldsOfInstant (toInstantMicros t)).minute (by omega) (by omega)
  obtain ⟨s1, s2, hsd, hgs1, hgs2⟩ :=
    fmt2_shape (utcFieldsOfInstant (toInstantMicros t)).second (by omega) (by omega)
  obtain ⟨f1, f2, f3, f4, f5, f6, hud, hgu1, hgu2, hgu3, hgu4, hgu5, hgu6⟩ :=
    fmt6_shape (utcFieldsOfInstant (toInstantMicros t)).microsecond hu0 hu1
  have hcs : strftimeChars (utcFieldsOfInstant (toInstantMicros t))
      = [y1, y2, y3, y4, '-', m1, m2, '-', d1, d2, 'T', h1, h2, ':',
         n1, n2, ':', s1, s2, '.', f1, f2, f3, f4, f5, f6] := by
    rw [strftimeChars, hyd, hmd, hdd, hhd, hnd, hsd, hud]
    rfl
  have hfmt : formatTimestamptz t
      = String.mk [y1, y2, y3, y4, '-', m1, m2, '-', d1, d2, 'T', h1, h2, ':',
          n1, n2, ':', s1, s2, '.', f1, f2, f3, 'Z'] := by
    simp only [formatTimestamptz, hcs]
    rfl
  rw [matchesTimestampPattern, hfmt]
  simp [matchesTimestampShape, hgy1, hgy2, hgy3, hgy4, hgm1, hgm2, hgd1, hgd2,
    hgh1, hgh2, hgn1, hgn2, hgs1, hgs2, hgu1, hgu2, hgu3]

theorem c3_timestamp_normalisation_witness :
    matchesTimestampPattern
      (formatTimestamptz ⟨2024, 6, 1, 12, 34, 56, 789123, 120⟩) = true :=
  (c3_timestamp_normalisation ⟨2024, 6, 1, 12, 34, 56, 789123, 120⟩
    (by decide) (by decide) (by decide) (by decide) (by decide) (by decide)).1
theorem overrideWindows_stop (fuel : Nat) (bs bt target step : Int)
    (h : ¬ bt ≤ target) : overrideWindows fuel bs bt target step = [] := by
  cases fuel <;> simp [overrideWindows, h]

theorem overrideWindows_closed : ∀ (fuel : Nat) (cur target step : Int),
    0 < step → cur ≤ target →
    (target - cur).toNat / step.toNat + 1 ≤ fuel →
    overrideWindows fuel cur cur target step =
      (List.range ((target - cur).toNat / step.toNat + 1)).map
        fun k : Nat => (cur + (k : Int) * step, cur + ((k : Int) + 1) * step) := by
  intro fuel
  induction fuel with
  | zero =>
    intro cur target step hs hct hf
    exact absurd hf (Nat.not_succ_le_zero _)
  | succ f ih =>
    intro cur target step hs hct hf
    simp only [overrideWindows, if_pos hct]
    by_cases hnext : cur + step ≤ target
    · have h1 : 0 < step.toNat := by omega
      have h2 : step.toNat ≤ (target - cur).toNat := by omega
      have hsub0 := Nat.div_eq_sub_div h1 h2
      have h3 : (target - cur).toNat - step.toNat = (target - (cur + step)).toNat := by
        omega
      rw [h3] at hsub0
      have hcount : (target - cur).toNat / step.toNat + 1
          = ((target - (cur + step)).toNat / step.toNat + 1) + 1 := by omega
      rw [hcount, List.range_succ_eq_map, List.map_cons, List.map_map,
        ih (cur + step) target step hs hnext (by omega)]
      congr 1
      · norm_num
      · apply List.map_congr_left
        intro k _
        simp only [Function.comp_apply, Prod.mk.injEq]
        constructor
        · push_cast
          ring
        · push_cast
          ring
    · have h0 : (target - cur).toNat / step.toNat = 0 :=
        Nat.div_eq_of_lt (by omega)
      rw [overrideWindows_stop _ _ _ _ _ hnext, h0]
      simp [List.range_succ]

/-- C4: the override planner slices `[source_ts, target_ts]` into consecutive
sub-windows of width `step` starting at `source_ts`, with
`sub_start (k+1) = sub_end k = sub_start k + step`: the emitted list is
exactly the first `(target_ts - source_ts) / step + 1` such windows - every
window whose end lies at or before `target_ts` plus the one final window on
which the predicate first fails - and when `source_ts = target_ts` exactly
one sub-window `[source_ts, source_ts + step]` is emitted. -/
theorem c4_subwindow_slicing (sourceTs targetTs step : Int) (fuel : Nat)
    (hs : 0 < step) (hst : sourceTs ≤ targetTs)
    (hf : (targetTs - sourceTs).toNat / step.toNat + 1 ≤ fuel) :
    overrideWindows fuel sourceTs sourceTs targetTs step =
      (List.range ((targetTs - sourceTs).toNat / step.toNat + 1)).map
        (fun k : Nat =>
          (sourceTs + (k : Int) * step, sourceTs + ((k : Int) + 1) * step))
    ∧ (sourceTs = targetTs →
        overrideWindows fuel sourceTs sourceTs targetTs step =
          [(sourceTs, sourceTs + step)]) := by
  refine ⟨overrideWindows_closed fuel sourceTs targetTs step hs hst hf, ?_⟩
  intro heq
  rw [overrideWindows_closed fuel sourceTs targetTs step hs hst hf]
  subst heq
  simp [List.range_succ]

theorem c4_subwindow_slicing_witness :
    overrideWindows 10 0 0 19 7 = [(0, 7), (7, 14), (14, 21)]
    ∧ overrideWindows 10 5 5 5 7 = [(5, 12)] := by
  constructor
  · rw [(c4_subwindow_slicing 0 19 7 10 (by decide) (by decide) (by decide)).1]
    decide
  · exact (c4_subwindow_slicing 5 5 7 10 (by decide) (by decide) (by decide)).2 rfl

/-- C5: a flush is entered exactly when the notify buffer is non-empty and
either the buffer length strictly exceeds the size threshold or the time
since the last flush reaches the duration threshold (inclusive); an empty
buffer never flushes, at exactly the size threshold alone no flush occurs,
and at exactly the duration threshold a non-empty buffer does flush. -/
theorem c5_flush_trigger (buffer : List String) (size now last duration : Int) :
    (flushTriggered buffer size now last duration = true ↔
      buffer ≠ [] ∧ ((buffer.length : Int) > size ∨ now - last ≥ duration))
    ∧ flushTriggered [] size now last duration = false
    ∧ ((buffer.length : Int) = size → now - last < duration →
        flushTriggered buffer size now last duration = false)
    ∧ (buffer ≠ [] → now - last = duration →
        flushTriggered buffer size now last duration = true) := by
  refine ⟨⟨?_, ?_⟩, ?_, ?_, ?_⟩
  · intro h
    by_cases hc : (buffer.length : Int) > size ∨ now - last ≥ duration
    · refine ⟨?_, hc⟩
      rw [flushTriggered, if_pos hc] at h
      simpa [List.isEmpty_iff] using h
    · rw [flushTriggered, if_neg hc] at h
      simp at h
  · rintro ⟨hne, hc⟩
    rw [flushTriggered, if_pos hc]
    simpa [List.isEmpty_iff] using hne
  · simp [flushTriggered]
  · intro h1 h2
    rw [flushTriggered, if_neg (by omega)]
  · intro h1 h2
    rw [flushTriggered, if_pos (Or.inr (by omega))]
    simpa [List.isEmpty_iff] using h1

theorem c5_flush_trigger_witness :
    flushTriggered ["A1"] 1 100 100 60 = false
    ∧ flushTriggered ["A1"] 1 160 100 60 = true :=
  ⟨(c5_flush_trigger ["A1"] 1 100 100 60).2.2.1 (by decide) (by decide),
   (c5_flush_trigger ["A1"] 1 160 100 60).2.2.2 (by decide) (by decide)⟩

/-- C6: the normaliser replaces a text cell that parses as JSON to an array
with that array; any other text cell - parse failure (silently) or a
non-array parse - is left unchanged, and non-text cells are untouched. -/
theorem c6_jsonb_normalisation (parse : String → Option Json) (s : String)
    (v : Value) :
    (∀ xs, parse s = some (Json.arr xs) →
      convert_jsonb parse (Value.vStr s) = Value.vList xs)
    ∧ ((∀ xs, parse s ≠ some (Json.arr xs)) →
      convert_jsonb parse (Value.vStr s) = Value.vStr s)
    ∧ (parse s = none → convert_jsonb parse (Value.vStr s) = Value.vStr s)
    ∧ ((∀ u, v ≠ Value.vStr u) → convert_jsonb parse v = v) := by
  refine ⟨?_, ?_, ?_, ?_⟩
  · intro xs h
    simp [convert_jsonb, h]
  · intro h
    cases hp : parse s with
    | none => simp [convert_jsonb, hp]
    | some j =>
      cases j with
      | arr xs => exact absurd hp (h xs)
      | null => simp [convert_jsonb, hp]
      | bool b => simp [convert_jsonb, hp]
      | num n => simp [convert_jsonb, hp]
      | str u => simp [convert_jsonb, hp]
      | obj fs => simp [convert_jsonb, hp]
  · intro h
    simp [convert_jsonb, h]
  · intro h
    cases v with
    | vStr u => exact absurd rfl (h u)
    | vNull => rfl
    | vNaT => rfl
    | vBool b => rfl
    | vInt n => rfl
    | vDatetime d => rfl
    | vNdarray xs => rfl
    | vList xs => rfl

theorem c6_jsonb_normalisation_witness :
    convert_jsonb (fun _ => some (Json.arr [Json.str "x", Json.str "y"]))
        (Value.vStr "[\"x\",\"y\"]")
      = Value.vList [Json.str "x", Json.str "y"]
    ∧ convert_jsonb (fun _ => none) (Value.vStr "not json")
      = Value.vStr "not json"
    ∧ convert_jsonb (fun _ => none) (Value.vInt 7) = Value.vInt 7 :=
  ⟨(c6_jsonb_normalisation (fun _ => some (Json.arr [Json.str "x", Json.str "y"]))
      "[\"x\",\"y\"]" Value.vNull).1 _ rfl,
   (c6_jsonb_normalisation (fun _ => none) "not json" Value.vNull).2.2.1 rfl,
   (c6_jsonb_normalisation (fun _ => none) "" (Value.vInt 7)).2.2.2
     (fun _ h => Value.noConfusion h)⟩

/-- C7: the business hook dispatcher treats an unregistered transform module
as non-fatal - it logs a warning and returns normally with the data
unchanged - while an exception raised by a registered transform's `process`
entry point propagates to the caller untouched (and a normal `process` run
returns its result with no warning). -/
theorem c7_business_hook {α : Type} (registry : Registry α)
    (moduleName : String) (data : α) :
    (registry (pyLower moduleName) = none →
      ∃ w, process_business_logic registry moduleName data
        = Except.ok (some w, data))
    ∧ (∀ f e, registry (pyLower moduleName) = some (some f) →
        f data = Except.error e →
        process_business_logic registry moduleName data = Except.error e)
    ∧ (∀ f d2, registry (pyLower moduleName) = some (some f) →
        f data = Except.ok d2 →
        process_business_logic registry moduleName data
          = Except.ok (none, d2)) := by
  refine ⟨?_, ?_, ?_⟩
  · intro h
    exact ⟨"module not found", by simp [process_business_logic, h]⟩
  · intro f e h1 h2
    simp [process_business_logic, h1, h2]
  · intro f d2 h1 h2
    simp [process_business_logic, h1, h2]

theorem c7_business_hook_witness :
    (∃ w, process_business_logic (fun _ => none : Registry Nat)
        "business_logic.ASSET" 0 = Except.ok (some w, 0))
    ∧ process_business_logic
        (fun _ => some (some fun _ => Except.error "hook failure") : Registry Nat)
        "business_logic.ASSET" 0 = Except.error "hook failure" :=
  ⟨(c7_business_hook (fun _ => none : Registry Nat)
      "business_logic.ASSET" 0).1 rfl,
   (c7_business_hook
      (fun _ => some (some fun _ => Except.error "hook failure") : Registry Nat)
      "business_logic.ASSET" 0).2.1 _ "hook failure" rfl rfl⟩

theorem solrCellFix_idem (parse : String → Option Json) (v : Value) :
    solrFieldFix parse (convertTsValue (solrFieldFix parse (convertTsValue v)))
      = solrFieldFix parse (convertTsValue v) := by
  cases v with
  | vStr s =>
    cases hp : parse s with
    | none => simp [convertTsValue, solrFieldFix, hp]
    | some j => cases j <;> simp [convertTsValue, solrFieldFix, hp]
  | vDatetime d =>
    cases hp : parse (formatTimestamptz d) with
    | none => simp [convertTsValue, solrFieldFix, hp]
    | some j => cases j <;> simp [convertTsValue, solrFieldFix, hp]
  | vNull => rfl
  | vNaT => rfl
  | vBool b => rfl
  | vInt n => rfl
  | vNdarray xs => rfl
  | vList xs => rfl

theorem update_solr_normalize_map (parse : String → Option Json)
    (record : List (String × Value)) :
    update_solr_normalize parse record
      = record.map fun kv => (kv.1, solrFieldFix parse (convertTsValue kv.2)) := by
  rw [update_solr_normalize, convert_timestamptz_to_date, List.map_map]
  rfl

/-- C9: the row-to-document normalisation (timestamp conversion followed by
the JSON-array / numpy-array field fix) is idempotent on records, and
`convert_jsonb` is idempotent on single cells: normalised timestamps are
plain strings and normalised arrays are no longer text, so a second pass
changes nothing - for any behaviour of the external JSON parser. -/
theorem c9_normalisation_idempotent (parse : String → Option Json)
    (record : List (String × Value)) :
    update_solr_normalize parse (update_solr_normalize parse record)
      = update_solr_normalize parse record
    ∧ ∀ v, convert_jsonb parse (convert_jsonb parse v) = convert_jsonb parse v := by
  constructor
  · rw [update_solr_normalize_map parse record,
      update_solr_normalize_map parse
        (record.map fun kv => (kv.1, solrFieldFix parse (convertTsValue kv.2))),
      List.map_map]
    apply List.map_congr_left
    intro kv _
    simp [Function.comp_apply, solrCellFix_idem]
  · intro v
    cases v with
    | vStr s =>
      cases hp : parse s with
      | none => simp [convert_jsonb, hp]
      | some j => cases j <;> simp [convert_jsonb, hp]
    | vNull => rfl
    | vNaT => rfl
    | vBool b => rfl
    | vInt n => rfl
    | vDatetime d => rfl
    | vNdarray xs => rfl
    | vList xs => rfl

/-- C10: when `setup_connection` raises, `get_all` and `get_by_id` catch and
log the original exception but their `finally` block then closes the
never-assigned `cursor`, raising `UnboundLocalError`; when the query raises,
the handler logs it and the trailing `return arrow_table` reads a
never-assigned local, again raising `UnboundLocalError`.  Either way the
caller receives neither a result table nor the original database error -
that error only reaches the log.  A successful run returns the table. -/
theorem c10_fetch_unbound_local (e : String) (q : Except String Table)
    (t : Table) :
    get_all (Except.error e) q
        = (Except.error (PyExc.unboundLocal "cursor"), [e])
    ∧ get_all (Except.ok ()) (Except.error e)
        = (Except.error (PyExc.unboundLocal "arrow_table"), [e])
    ∧ get_by_id (Except.error e) q
        = (Except.error (PyExc.unboundLocal "cursor"), [e])
    ∧ get_by_id (Except.ok ()) (Except.error e)
        = (Except.error (PyExc.unboundLocal "arrow_table"), [e])
    ∧ get_all (Except.ok ()) (Except.ok t) = (Except.ok t, []) :=
  ⟨rfl, rfl, rfl, rfl, rfl⟩

/-- C8: if the domain is supplied by neither the `-d` argument nor the
`DOMAIN` environment variable (unset or empty, hence falsy), or any required
per-domain configuration attribute is missing, the program terminates with
exit status 1 - through an unhandled `NameError` / `AttributeError`, since
CPython exits with status 1 on an unhandled exception; exit status 0 occurs
only when the selected modes terminated normally. -/
theorem c8_exit_codes (argDomain envDomain : Option String)
    (cfg : String → Option String) (runModes : Except String Unit) :
    (argDomain = none → (envDomain = none ∨ envDomain = some "") →
      exitStatus (mainEntry argDomain envDomain cfg runModes) = 1)
    ∧ (∀ domain k, bindDomain argDomain envDomain = some domain →
        k ∈ requiredKeys domain → cfg k = none →
        exitStatus (mainEntry argDomain envDomain cfg runModes) = 1)
    ∧ (exitStatus (mainEntry argDomain envDomain cfg runModes) = 0 →
        runModes = Except.ok ()
          ∧ mainEntry argDomain envDomain cfg runModes
              = MainOutcome.exited 0) := by
  refine ⟨?_, ?_, ?_⟩
  · intro h1 h2
    have hbind : bindDomain argDomain envDomain = none := by
      subst h1
      rcases h2 with h | h <;> subst h <;> simp [bindDomain]
    simp [mainEntry, hbind, exitStatus]
  · intro domain k hbind hk hcfg
    have hmiss : firstMissingKey cfg (requiredKeys domain) ≠ none := by
      intro hnone
      have := List.find?_eq_none.mp hnone k hk
      simp [hcfg] at this
    cases hv : firstMissingKey cfg (requiredKeys domain) with
    | none => exact absurd hv hmiss
    | some k2 => simp [mainEntry, hbind, hv, exitStatus]
  · intro h
    unfold mainEntry at h ⊢
    cases hbind : bindDomain argDomain envDomain with
    | none => simp [hbind, exitStatus] at h
    | some domain =>
      cases hmiss : firstMissingKey cfg (requiredKeys domain) with
      | some k => simp [hbind, hmiss, exitStatus] at h
      | none =>
        cases runModes with
        | error e => simp [hbind, hmiss, exitStatus] at h
        | ok u =>
          cases u
          exact ⟨rfl, by simp [hmiss]⟩

theorem c8_exit_codes_witness :
    exitStatus (mainEntry none none (fun _ => some "v") (Except.ok ())) = 1
    ∧ exitStatus (mainEntry (some "asset") none (fun _ => none)
        (Except.ok ())) = 1 :=
  ⟨(c8_exit_codes none none (fun _ => some "v") (Except.ok ())).1 rfl
      (Or.inl rfl),
   (c8_exit_codes (some "asset") none (fun _ => none) (Except.ok ())).2.1
      "ASSET" "SOLR_COLLECTION_ASSET" (by decide) (by decide) rfl⟩

/-- C1 (amended): in a flush, an exception raised by the keyed fetch
(PROCESS step 1) or by the business hook (step 3) propagates to the
listener's handler: the in-memory buffer is left untouched, the persistent
buffer un-acknowledged, and the loop transitions to its backoff sleep; a
connection failure inside the acknowledgement call behaves likewise.  But
`update_solr` wraps its whole body in `except Exception`, so a flush whose
index upsert raises completes normally - the payloads are still acknowledged
and the in-memory buffer cleared - and a failed acknowledgement statement is
also swallowed, clearing the in-memory buffer while leaving the persistent
buffer un-acknowledged. -/
theorem c1_flush_failure_policy (env : FlushEnv) (parse : String → Option Json)
    (moduleName : String) (st : ListenerState) :
    (∀ e, env.fetchConnect = Except.error e →
      event_listener_flush env parse moduleName st
        = FlushStep.backoff st (PyExc.unboundLocal "cursor"))
    ∧ (∀ e, env.fetchConnect = Except.ok () →
        env.fetchQuery = Except.error e →
      event_listener_flush env parse moduleName st
        = FlushStep.backoff st (PyExc.unboundLocal "arrow_table"))
    ∧ (∀ data f e, env.fetchConnect = Except.ok () →
        env.fetchQuery = Except.ok data →
        env.registry (pyLower moduleName) = some (some f) →
        f data = Except.error e →
      event_listener_flush env parse moduleName st
        = FlushStep.backoff st (PyExc.raised e))
    ∧ (∀ data e, env.fetchConnect = Except.ok () →
        env.fetchQuery = Except.ok data →
        env.registry (pyLower moduleName) = none →
        env.solrAdd = Except.error e → env.cleanConnect = Except.ok () →
        env.cleanExec = Except.ok () →
      event_listener_flush env parse moduleName st
        = FlushStep.listen
            { notifyBuffer := [],
              persistentBuffer := st.persistentBuffer.filter
                fun p => !st.notifyBuffer.contains p,
              solrBatches := st.solrBatches })
    ∧ (∀ data e, env.fetchConnect = Except.ok () →
        env.fetchQuery = Except.ok data →
        env.registry (pyLower moduleName) = none →
        env.solrAdd = Except.ok () → env.cleanConnect = Except.ok () →
        env.cleanExec = Except.error e →
      event_listener_flush env parse moduleName st
        = FlushStep.listen
            { notifyBuffer := [],
              persistentBuffer := st.persistentBuffer,
              solrBatches := st.solrBatches
                ++ [data.map (update_solr_normalize parse)] })
    ∧ (∀ data e, env.fetchConnect = Except.ok () →
        env.fetchQuery = Except.ok data →
        env.registry (pyLower moduleName) = none →
        env.cleanConnect = Except.error e →
      event_listener_flush env parse moduleName st
        = FlushStep.backoff
            { st with solrBatches := st.solrBatches
                ++ update_solr parse env.solrAdd (some data) }
            (PyExc.unboundLocal "cursor")) := by
  refine ⟨?_, ?_, ?_, ?_, ?_, ?_⟩ <;> intros <;>
    simp_all [event_listener_flush, get_by_id, dbFetchRun,
      process_business_logic, update_solr, clean_event_notification_by_id]

theorem c1_flush_failure_policy_witness :
    event_listener_flush
        { fetchConnect := Except.error "connection refused",
          fetchQuery := Except.ok [], registry := fun _ => none,
          solrAdd := Except.ok (), cleanConnect := Except.ok (),
          cleanExec := Except.ok () }
        (fun _ => none) "business_logic.ASSET"
        { notifyBuffer := ["A1"], persistentBuffer := ["A1"],
          solrBatches := [] }
      = FlushStep.backoff
          { notifyBuffer := ["A1"], persistentBuffer := ["A1"],
            solrBatches := [] }
          (PyExc.unboundLocal "cursor")
    ∧ event_listener_flush
        { fetchConnect := Except.ok (),
          fetchQuery := Except.ok [[("k", Value.vStr "A1")]],
          registry := fun _ => some (some fun _ => Except.error "hook failure"),
          solrAdd := Except.ok (), cleanConnect := Except.ok (),
          cleanExec := Except.ok () }
        (fun _ => none) "business_logic.ASSET"
        { notifyBuffer := ["A1"], persistentBuffer := ["A1"],
          solrBatches := [] }
      = FlushStep.backoff
          { notifyBuffer := ["A1"], persistentBuffer := ["A1"],
            solrBatches := [] }
          (PyExc.raised "hook failure") :=
  ⟨(c1_flush_failure_policy _ _ _ _).1 "connection refused" rfl,
   (c1_flush_failure_policy _ _ _ _).2.2.1 _ _ "hook failure" rfl rfl rfl rfl⟩

/-- C1 counterexample: a flush whose Solr upsert raises (`solr.add` fails
with an HTTP 500) nevertheless completes: the persistent notification buffer
is acknowledged (emptied), the in-memory buffer is cleared, and the loop
stays in LISTEN rather than entering BACKOFF - contradicting the claim that
any exception in PROCESS steps 1-5 leaves both buffers untouched. -/
theorem c1_counterexample :
    event_listener_flush
        { fetchConnect := Except.ok (),
          fetchQuery := Except.ok [[("fac_nbr", Value.vStr "C1")]],
          registry := fun _ => none, solrAdd := Except.error "solr http 500",
          cleanConnect := Except.ok (), cleanExec := Except.ok () }
        (fun _ => none) "business_logic.FACILITY"
        { notifyBuffer := ["C1"], persistentBuffer := ["C1"],
          solrBatches := [] }
      = FlushStep.listen
          { notifyBuffer := [], persistentBuffer := [], solrBatches := [] } :=
  rfl

/-- C2 (amended): the override planner awaits every sub-window worker and
logs each failure, but archival is not conditioned on their success: with a
pending override row it executes `clean_index_override` and returns `True`
regardless of worker failures (whenever the archive statement itself
succeeds), and with no pending row it archives nothing and returns `False`. -/
theorem c2_override_archival (overrides : List (Int × Int)) (step : Int)
    (fuel : Nat) (workerResult : Int × Int → Except String Bool) :
    ((process_index_override overrides step fuel workerResult
        (Except.ok ())).archived = true ↔ overrides ≠ [])
    ∧ (overrides = [] →
        process_index_override overrides step fuel workerResult (Except.ok ())
          = { returned := some false, archived := false, windows := [],
              failureLogs := [] })
    ∧ (∀ src tgt rest, overrides = (src, tgt) :: rest →
        (process_index_override overrides step fuel workerResult
            (Except.ok ())).returned = some true)
    ∧ (∀ src tgt rest e w, overrides = (src, tgt) :: rest →
        w ∈ overrideWindows fuel src src tgt step →
        workerResult w = Except.error e →
        e ∈ (process_index_override overrides step fuel workerResult
            (Except.ok ())).failureLogs) := by
  refine ⟨?_, ?_, ?_, ?_⟩
  · cases overrides with
    | nil => simp [process_index_override]
    | cons hd tl =>
      cases hd
      simp [process_index_override]
  · intro h
    subst h
    rfl
  · intro src tgt rest h
    subst h
    rfl
  · intro src tgt rest e w h hw hwr
    subst h
    simp only [process_index_override]
    refine List.mem_filterMap.mpr ⟨w, hw, ?_⟩
    rw [hwr]

theorem c2_override_archival_witness :
    (process_index_override [(0, 19)] 7 10 (fun _ => Except.ok true)
        (Except.ok ())).returned = some true
    ∧ process_index_override ([] : List (Int × Int)) 7 10
        (fun _ => Except.ok true) (Except.ok ())
      = { returned := some false, archived := false, windows := [],
          failureLogs := [] } :=
  ⟨(c2_override_archival [(0, 19)] 7 10 (fun _ => Except.ok true)).2.2.1
      0 19 [] rfl,
   (c2_override_archival [] 7 10 (fun _ => Except.ok true)).2.1 rfl⟩

/-- C2 counterexample: with the pending override window `(0, 0)` and its
single sub-window worker raising an exception, `clean_index_override` is
still executed (the record is archived) and the planner still returns
`True` - refuting archival-iff-all-workers-succeeded. -/
theorem c2_counterexample :
    process_index_override [(0, 0)] 7 5 (fun _ => Except.error "batch failed")
        (Except.ok ())
      = { returned := some true, archived := true, windows := [(0, 7)],
          failureLogs := ["batch failed"] } :=
  rfl
